import Mathlib

/-!
# Verification of the DeliverableEstimatePro3 orchestration core

Shallow embedding of the workflow state-evolution engine of
DeliverableEstimatePro3 (`state_manager.py`, `workflow_orchestrator_simple.py`,
`utils/excel_processor.py`).  Python dict-shaped agent results are modelled as
structures with `Option` fields for keys that may be absent or `None`; numeric
fields (Python floats) are modelled as exact rationals; user-visible printing is
out of scope except where a printed value is itself the subject of a property
(those values are returned by the embedded functions instead of printed).
-/

/-- Substring occurrence test on character lists: Python's `kw in text`
for strings, specialised to the keyword lists used by the repository. -/
def seq_starts_with : List Char → List Char → Bool
  | [], _ => true
  | _ :: _, [] => false
  | a :: as, b :: bs => a == b && seq_starts_with as bs

/-- Does `kw` occur as a contiguous subsequence of `text`? -/
def seq_occurs (kw : List Char) : List Char → Bool
  | [] => kw.isEmpty
  | c :: rest => seq_starts_with kw (c :: rest) || seq_occurs kw rest

/-- Python's `kw in text` on strings. -/
def str_has_sub (kw text : String) : Bool :=
  seq_occurs kw.toList text.toList

/-- Python's `str.lower()` (ASCII case folding; the repository's keyword
matching only distinguishes ASCII case). -/
def py_lower (s : String) : String := String.mk (s.toList.map Char.toLower)

/-- Whitespace as stripped by Python's `str.strip()` (ASCII subset). -/
def is_py_space (c : Char) : Bool :=
  c == ' ' || c == '\t' || c == '\n' || c == '\r' || c == '\x0b' || c == '\x0c'

/-- Python's `str.strip()`. -/
def py_strip (s : String) : String :=
  String.mk (((s.toList.dropWhile is_py_space).reverse.dropWhile is_py_space).reverse)

/-- `any(keyword in text for keyword in kws)` from `_infer_category`. -/
def any_keyword (kws : List String) (text : String) : Bool :=
  kws.any (fun kw => str_has_sub kw text)

/-- `ExcelProcessor._infer_category` (utils/excel_processor.py lines 105-125):
first-match keyword classifier over `name + " " + description`, lowercased. -/
def infer_category (name description : String) : String :=
  let text := py_lower (name ++ " " ++ description)
  if any_keyword ["requirements", "specification", "definition", "要件", "仕様", "定義"] text then
    "documentation"
  else if any_keyword ["frontend", "screen", "ui", "ux", "フロントエンド", "画面"] text then
    "frontend_development"
  else if any_keyword ["backend", "api", "server", "バックエンド", "サーバー"] text then
    "backend_development"
  else if any_keyword ["database", "db", "table", "データベース", "テーブル"] text then
    "database"
  else if any_keyword ["test", "testing", "テスト", "試験"] text then
    "testing"
  else if any_keyword ["security", "encryption", "authentication", "セキュリティ", "暗号化", "認証"] text then
    "security"
  else if any_keyword ["deploy", "deployment", "operation", "infrastructure", "デプロイ", "運用", "インフラ"] text then
    "deployment"
  else
    "other"

/-- The ordered rule table of `_infer_category`, category paired with its
keyword set, in source order. -/
def category_rules : List (String × List String) :=
  [("documentation", ["requirements", "specification", "definition", "要件", "仕様", "定義"]),
   ("frontend_development", ["frontend", "screen", "ui", "ux", "フロントエンド", "画面"]),
   ("backend_development", ["backend", "api", "server", "バックエンド", "サーバー"]),
   ("database", ["database", "db", "table", "データベース", "テーブル"]),
   ("testing", ["test", "testing", "テスト", "試験"]),
   ("security", ["security", "encryption", "authentication", "セキュリティ", "暗号化", "認証"]),
   ("deployment", ["deploy", "deployment", "operation", "infrastructure", "デプロイ", "運用", "インフラ"])]

/-- Generic first-matching-rule-wins classifier over an ordered rule table,
falling through to `"other"`. -/
def first_match_category : List (String × List String) → String → String
  | [], _ => "other"
  | (cat, kws) :: rest, text =>
      if any_keyword kws text then cat else first_match_category rest text

/-! ## Data model

Python dicts of `state_manager.py` / the agents' JSON results, as structures.
Numeric fields (Python floats) are modelled as exact rationals. -/

/-- One row of the deliverable list read from Excel
(`read_deliverables_from_excel`). -/
structure Deliverable where
  name : String
  description : String
  category : String
  complexity_level : String
deriving DecidableEq, Repr

/-- The Evaluator-supplied grand-total block `financial_summary` of an
estimation result. -/
structure FinancialSummary where
  total_effort_days : ℚ
  subtotal : ℚ
  tax : ℚ
  total : ℚ
deriving DecidableEq, Repr

/-- One entry of `deliverable_estimates` inside an estimation result. -/
structure DeliverableEstimate where
  name : String
  description : String
  base_effort_days : ℚ
  final_effort_days : ℚ
  cost : ℚ
  confidence_score : ℚ
deriving DecidableEq, Repr

/-- The inner `estimation_result` dict produced by the Estimation evaluator:
per-item estimates, the (untrusted) `financial_summary` (absent when the model
did not emit one), an opaque `technical_assumptions` payload and the
self-reported `overall_confidence`. -/
structure EstimationData where
  deliverable_estimates : List DeliverableEstimate
  financial_summary : Option FinancialSummary
  technical_assumptions : String
  overall_confidence : ℚ
deriving DecidableEq, Repr

/-- An agent's result dict: the `success` flag, an optional `error` message and
(for the Estimation agent) the optional inner `estimation_result` payload. -/
structure AgentResult where
  success : Bool
  error : Option String := none
  estimation_result : Option EstimationData := none
deriving DecidableEq, Repr

/-- An entry of `session_logs` (`log_agent_execution`); timestamps and
execution times are out of scope. -/
structure LogEntry where
  agent_name : String
  success : Bool
  error : Option String := none
deriving DecidableEq, Repr

/-- An entry of `iteration_history` (`save_iteration_to_history`); the
timestamp is out of scope.  `technical_assumptions` and `changes_summary` are
only present when the snapshotted estimation result was successful. -/
structure IterationSnapshot where
  iteration_number : Nat
  user_feedback : String
  business_evaluation : Option AgentResult
  quality_evaluation : Option AgentResult
  constraints_evaluation : Option AgentResult
  estimation_result : Option AgentResult
  session_logs : List LogEntry
  errors : List String
  warnings : List String
  technical_assumptions : Option String
  changes_summary : Option (List String)
deriving DecidableEq, Repr

/-- The workflow state dict (`EstimationState` of state_manager.py). -/
structure EstimationState where
  excel_input : String
  system_requirements : String
  deliverables_memory : List Deliverable
  current_step : String
  iteration_count : Nat
  session_logs : List LogEntry
  errors : List String
  warnings : List String
  user_approved : Bool
  user_feedback : String
  iteration_history : List IterationSnapshot
  business_evaluation : Option AgentResult
  quality_evaluation : Option AgentResult
  constraints_evaluation : Option AgentResult
  estimation_result : Option AgentResult
  previous_evaluation_results : Option AgentResult × Option AgentResult × Option AgentResult
deriving DecidableEq, Repr

/-- The four agent identities `update_evaluation_result` dispatches on. -/
inductive AgentName where
  | business
  | quality
  | constraints
  | estimation
deriving DecidableEq, Repr

/-- `create_initial_state` (state_manager.py lines 13-36). -/
def create_initial_state (excel_input system_requirements : String)
    (deliverables : List Deliverable) : EstimationState :=
  { excel_input := excel_input
    system_requirements := system_requirements
    deliverables_memory := deliverables
    current_step := "initialized"
    iteration_count := 0
    session_logs := []
    errors := []
    warnings := []
    user_approved := false
    user_feedback := ""
    iteration_history := []
    business_evaluation := none
    quality_evaluation := none
    constraints_evaluation := none
    estimation_result := none
    previous_evaluation_results := (none, none, none) }

/-- `log_agent_execution` (state_manager.py lines 38-54): append a log entry;
on failure additionally append `"{agent_name}: {error}"` to `errors`. -/
def log_agent_execution (st : EstimationState) (agent_name : String)
    (result : AgentResult) : EstimationState :=
  let err := result.error.getD "Unknown error"
  let st1 :=
    if result.success then st
    else { st with errors := st.errors ++ [agent_name ++ ": " ++ err] }
  { st1 with
      session_logs := st1.session_logs ++
        [{ agent_name := agent_name, success := result.success,
           error := if result.success then none else some err }] }

/-- `update_evaluation_result` (state_manager.py lines 56-70): fold a result
into its slot, but only when it carries `success`. -/
def update_evaluation_result (st : EstimationState) (agent : AgentName)
    (result : AgentResult) : EstimationState :=
  if !result.success then st
  else
    match agent with
    | .business => { st with business_evaluation := some result }
    | .quality => { st with quality_evaluation := some result }
    | .constraints => { st with constraints_evaluation := some result }
    | .estimation => { st with estimation_result := some result }

/-- Truthiness-and-success test applied to each slot by
`is_evaluation_complete`: a missing / `None` slot is falsy, otherwise the
`success` flag decides. -/
def eval_success : Option AgentResult → Bool
  | none => false
  | some r => r.success

/-- `is_evaluation_complete` (state_manager.py lines 72-109): all three of
business, quality, constraints are present and successful. -/
def is_evaluation_complete (st : EstimationState) : Bool :=
  eval_success st.business_evaluation &&
  eval_success st.quality_evaluation &&
  eval_success st.constraints_evaluation

/-! ## History snapshots and refinement -/

/-- `technical_assumptions` extraction at save time:
`state["estimation_result"].get("estimation_result", {}).get("technical_assumptions", {})`
(an absent inner payload yields the empty payload). -/
def tech_assumptions_of (est : AgentResult) : String :=
  match est.estimation_result with
  | some d => d.technical_assumptions
  | none => ""

/-- The `changes_summary` keyword heuristic of `save_iteration_to_history`
(state_manager.py lines 178-186), run only on non-empty feedback. -/
def changes_summary_of (fb : String) : List String :=
  if fb = "" then []
  else
    (if str_has_sub "response" (py_lower fb) || str_has_sub "performance" (py_lower fb) then
       ["Performance requirements updated"] else []) ++
    (if str_has_sub "library" (py_lower fb) || str_has_sub "platform" (py_lower fb) then
       ["Technology stack updated"] else []) ++
    (if str_has_sub "security" (py_lower fb) then
       ["Security requirements updated"] else [])

/-- The history entry built by `save_iteration_to_history`
(state_manager.py lines 159-187), for a state whose `estimation_result`
is `est`.  Note `iteration_number = iteration_count + 1` and that every
snapshotted field is the state's current (pre-refinement) value. -/
def mkIterationSnapshot (st : EstimationState) (fb : String) (est : AgentResult) :
    IterationSnapshot :=
  { iteration_number := st.iteration_count + 1
    user_feedback := fb
    business_evaluation := st.business_evaluation
    quality_evaluation := st.quality_evaluation
    constraints_evaluation := st.constraints_evaluation
    estimation_result := st.estimation_result
    session_logs := st.session_logs
    errors := st.errors
    warnings := st.warnings
    technical_assumptions := if est.success then some (tech_assumptions_of est) else none
    changes_summary := if est.success then some (changes_summary_of fb) else none }

/-- `save_iteration_to_history` with `estimation_result = est` present: append
one snapshot and refresh `previous_evaluation_results`
(state_manager.py lines 189-196). -/
def save_with (st : EstimationState) (fb : String) (est : AgentResult) :
    EstimationState :=
  { st with
      iteration_history := st.iteration_history ++ [mkIterationSnapshot st fb est]
      previous_evaluation_results :=
        (st.business_evaluation, st.quality_evaluation, st.constraints_evaluation) }

/-- `save_iteration_to_history` (state_manager.py lines 157-198).  When the
state's `estimation_result` is `None`, line 173
(`state.get("estimation_result", {}).get("success")`) raises `AttributeError`
before anything is appended; `none` models that raise. -/
def save_iteration_to_history (st : EstimationState) (fb : String) :
    Option EstimationState :=
  match st.estimation_result with
  | none => none
  | some est => some (save_with st fb est)

/-- The Estimation evaluator's `refine_estimate` capability, abstract:
inputs are the current estimate, the user feedback, the three evaluation
results and the previous estimate from history. -/
abbrev RefineAgent :=
  Option AgentResult → String →
  Option AgentResult × Option AgentResult × Option AgentResult →
  Option AgentResult → AgentResult

/-- The Estimation evaluator's `generate_estimate` capability, abstract. -/
abbrev GenAgent :=
  List Deliverable → String →
  Option AgentResult × Option AgentResult × Option AgentResult → AgentResult

/-- `previous_estimate` lookup of `_execute_refinement`
(workflow_orchestrator_simple.py lines 459-462): `history[-2]` when at least
two snapshots exist. -/
def previous_estimate_of (st : EstimationState) : Option AgentResult :=
  if 2 ≤ st.iteration_history.length then
    match st.iteration_history.get? (st.iteration_history.length - 2) with
    | some snap => snap.estimation_result
    | none => none
  else none

/-- The post-save tail of `_execute_refinement`
(workflow_orchestrator_simple.py lines 481-486): log the refine result, fold
it into the estimation slot when successful, then increment
`iteration_count` and mark the step. -/
def refine_fold (st : EstimationState) (result : AgentResult) : EstimationState :=
  let st2 := log_agent_execution st "EstimationAgent_Refinement" result
  let st3 := if result.success then update_evaluation_result st2 .estimation result else st2
  { st3 with iteration_count := st3.iteration_count + 1,
             current_step := "refinement_complete" }

/-- Error string appended when `save_iteration_to_history` raises inside
`_execute_refinement` (the Python message interpolates the `AttributeError`
text; the quotes of the original message are elided here). -/
def refinement_crash_message : String :=
  "Refinement execution error: NoneType object has no attribute get"

/-- `_execute_refinement` (workflow_orchestrator_simple.py lines 447-496):
snapshot the pre-refinement state to history, call the refine capability,
fold its result, bump `iteration_count`.  A raise inside the body is caught
and recorded as an error, leaving the rest of the state untouched. -/
def execute_refinement (agent : RefineAgent) (st : EstimationState) : EstimationState :=
  match save_iteration_to_history st st.user_feedback with
  | none => { st with errors := st.errors ++ [refinement_crash_message] }
  | some st1 =>
      refine_fold st1
        (agent st1.estimation_result st1.user_feedback
          (st1.business_evaluation, st1.quality_evaluation, st1.constraints_evaluation)
          (previous_estimate_of st1))

/-! ## User interaction loop -/

/-- One user decision: the approval-prompt answer, and the text supplied at the
feedback prompt in case the answer is an explicit rejection token. -/
structure UserInput where
  response : String
  feedback : String
deriving DecidableEq, Repr

/-- `input(...).strip().lower()` at the approval prompt
(workflow_orchestrator_simple.py line 420). -/
def normalize_response (s : String) : String := py_lower (py_strip s)

/-- The affirmative tokens of line 422. -/
def approve_tokens : List String := ["y", "yes", "approve"]

/-- The explicit rejection tokens of line 427. -/
def reject_tokens : List String := ["n", "no", "reject"]

/-- Is the (normalized) approval-prompt answer affirmative? -/
def is_approve_response (s : String) : Bool :=
  approve_tokens.contains (normalize_response s)

/-- The two non-approval branches of lines 427-435: explicit rejection tokens
prompt for separate feedback text; any other answer is itself stored as the
feedback. -/
def reject_target (st : EstimationState) (inp : UserInput) : EstimationState :=
  if reject_tokens.contains (normalize_response inp.response) then
    { st with user_approved := false, user_feedback := inp.feedback,
              current_step := "needs_refinement" }
  else
    { st with user_approved := false, user_feedback := normalize_response inp.response,
              current_step := "needs_refinement" }

/-- Result of classifying one approval-prompt answer. -/
inductive DecisionStep where
  | approved (st : EstimationState)
  | refine (st : EstimationState)
deriving DecidableEq, Repr

/-- The decision classification of lines 420-435. -/
def process_user_response (st : EstimationState) (inp : UserInput) : DecisionStep :=
  if is_approve_response inp.response then
    .approved { st with user_approved := true, current_step := "approved" }
  else
    .refine (reject_target st inp)

/-- `max_iterations` of `_execute_user_interaction_loop` (line 412). -/
def max_iterations : Nat := 3

/-- The `while iteration < max_iterations` loop of lines 415-441, with
`fuel = max_iterations - iteration`.  Each pass consumes one user decision;
approval breaks out; any other decision runs a refinement cycle and spends one
unit of fuel.  An exhausted input list (the user supplying no further decision)
is outside the model: the state reached so far is returned. -/
def user_loop_aux (agent : RefineAgent) : Nat → List UserInput → EstimationState → EstimationState
  | 0, _, st => st
  | _ + 1, [], st => st
  | fuel + 1, inp :: rest, st =>
    match process_user_response st inp with
    | .approved st' => st'
    | .refine st1 => user_loop_aux agent fuel rest (execute_refinement agent st1)

/-- `_execute_user_interaction_loop` (lines 408-445).  The boolean component
models the terminal `max_iterations` warning printed at line 443, emitted
exactly when the loop ends without approval. -/
def execute_user_interaction_loop (agent : RefineAgent) (inputs : List UserInput)
    (st : EstimationState) : EstimationState × Bool :=
  let s := user_loop_aux agent max_iterations inputs st
  (s, !s.user_approved)

/-! ## Parallel evaluation stage -/

/-- The joined results dict of the three-way fan-out: `none` in a slot means no
result was collected for that evaluator (its future raised). -/
structure ParallelResults where
  business : Option AgentResult
  quality : Option AgentResult
  constraints : Option AgentResult
deriving DecidableEq, Repr

/-- Folding one collected result into the state
(workflow_orchestrator_simple.py lines 189-202): log it if present, and fold it
into its evaluation slot only when successful. -/
def fold_parallel_result (st : EstimationState) (name : String) (slot : AgentName) :
    Option AgentResult → EstimationState
  | none => st
  | some r =>
    let st' := log_agent_execution st name r
    if r.success then update_evaluation_result st' slot r else st'

/-- `_execute_parallel_evaluation`'s state-update step (lines 186-208): fold
the three collected results, then bump `iteration_count` and mark the step. -/
def execute_parallel_evaluation (res : ParallelResults) (st : EstimationState) :
    EstimationState :=
  let s1 := fold_parallel_result st "BusinessRequirementsAgent" .business res.business
  let s2 := fold_parallel_result s1 "QualityRequirementsAgent" .quality res.quality
  let s3 := fold_parallel_result s2 "ConstraintsAgent" .constraints res.constraints
  { s3 with iteration_count := st.iteration_count + 1,
            current_step := "parallel_evaluation_complete" }

/-- Possible behaviours of one evaluator call inside the fan-out. -/
inductive CallOutcome where
  | completes (r : AgentResult)
  | raises (msg : String)
  | hangs
deriving DecidableEq, Repr

/-- The timeout argument passed to `future.result` in
`_execute_fallback_parallel_evaluation` (line 290).  It can never fire:
`as_completed` at line 286 (itself called with no timeout) yields a future only
once it is already done, so `future.result(timeout=120)` always returns
immediately and the `TimeoutError` branch at lines 293-295 is unreachable. -/
def fallback_timeout_seconds : Nat := 120

/-- Primary-path collection (lines 163-182): a raising future is caught and
leaves its slot absent. -/
def primary_slot : CallOutcome → Option AgentResult
  | .completes r => some r
  | .raises _ => none
  | .hangs => none

/-- Primary-path join of `_execute_parallel_evaluation` (lines 163-182):
`future.result()` is called with NO timeout, so a hanging evaluator blocks the
join forever — modelled as `none`, i.e. no results dict is ever produced. -/
def primary_collect (b q c : CallOutcome) : Option ParallelResults :=
  if b = .hangs ∨ q = .hangs ∨ c = .hangs then none
  else some ⟨primary_slot b, primary_slot q, primary_slot c⟩

/-- Fallback-path per-slot result for a call whose future completed
(lines 226-269, 286-298): the `safe_run_*` wrappers catch a raise inside the
worker and return `{"success": False, "error": str(e)}`, so a done future
always yields a result dict.  The `hangs` arm is unreachable under
`fallback_collect`'s guard — a hanging future is never yielded by
`as_completed` — which is exactly why the dead `TimeoutError` branch's
`{"success": False, "error": "Timeout"}` value never materialises. -/
def fallback_done_slot : CallOutcome → Option AgentResult
  | .completes r => some r
  | .raises msg => some { success := false, error := some msg }
  | .hangs => none

/-- Fallback-path join of `_execute_fallback_parallel_evaluation`
(lines 286-298): the collection loop iterates `as_completed(futures)` with no
timeout, which blocks until each future is done — so a hanging evaluator
blocks this join indefinitely too (modelled as `none`), and otherwise every
slot receives the done future's result. -/
def fallback_collect (b q c : CallOutcome) : Option ParallelResults :=
  if b = .hangs ∨ q = .hangs ∨ c = .hangs then none
  else some ⟨fallback_done_slot b, fallback_done_slot q, fallback_done_slot c⟩

/-! ## Estimation stage -/

/-- The blocking error recorded when the completion gate fails (line 349). -/
def gate_error_message : String := "Parallel evaluation not completed"

/-- `_execute_estimation_generation` (workflow_orchestrator_simple.py lines
335-397): refuse to call the estimation evaluator unless
`is_evaluation_complete` holds, recording a blocking error instead; otherwise
call it, log, fold on success, and mark the step. -/
def execute_estimation_generation (agent : GenAgent) (st : EstimationState) :
    EstimationState :=
  if !is_evaluation_complete st then
    { st with errors := st.errors ++ [gate_error_message] }
  else
    let result := agent st.deliverables_memory st.system_requirements
      (st.business_evaluation, st.quality_evaluation, st.constraints_evaluation)
    let st1 := log_agent_execution st "EstimationAgent" result
    let st2 := if result.success then update_evaluation_result st1 .estimation result else st1
    { st2 with current_step := "estimation_complete" }

/-! ## Aggregation and reporting -/

/-- `total_effort` of `_display_current_results` (line 572): sum of per-item
`final_effort_days`. -/
def total_effort_of (items : List DeliverableEstimate) : ℚ :=
  (items.map (fun i => i.final_effort_days)).sum

/-- `total_cost` of `_display_current_results` (line 573): sum of per-item
`cost`. -/
def total_cost_of (items : List DeliverableEstimate) : ℚ :=
  (items.map (fun i => i.cost)).sum

/-- `avg_confidence` of `_display_current_results` (lines 576-577):
effort-weighted average confidence, 0 when total effort is not positive. -/
def weighted_confidence_of (items : List DeliverableEstimate) : ℚ :=
  let total_confidence_weighted :=
    (items.map (fun i => i.confidence_score * i.final_effort_days)).sum
  let total_effort := total_effort_of items
  if 0 < total_effort then total_confidence_weighted / total_effort else 0

/-- The display aggregation of `_display_current_results` (lines 570-581),
as a function of the whole inner estimation payload:
`(total_effort, total_cost, avg_confidence)`.  Only `deliverable_estimates`
is read. -/
def compute_display_aggregates (est : EstimationData) : ℚ × ℚ × ℚ :=
  (total_effort_of est.deliverable_estimates,
   total_cost_of est.deliverable_estimates,
   weighted_confidence_of est.deliverable_estimates)

/-- Python's `round` (banker's rounding, half to even) on an exact rational. -/
def py_round_half_even (q : ℚ) : ℤ :=
  let f := Int.floor q
  let frac := q - f
  if frac < (1 : ℚ) / 2 then f
  else if (1 : ℚ) / 2 < frac then f + 1
  else if f % 2 = 0 then f else f + 1

/-- Python's `round(q, 2)`. -/
def py_round2 (q : ℚ) : ℚ := (py_round_half_even (q * 100) : ℚ) / 100

/-- The `【Total】` summary row appended by `_merge_estimation_data`
(utils/excel_processor.py lines 186-202): totals recomputed from the
individual deliverables, never from the AI-generated `financial_summary`. -/
def merge_total_row (est : EstimationData) : ℚ × ℚ × ℚ :=
  let items := est.deliverable_estimates
  let total_effort := (items.map (fun i => i.final_effort_days)).sum
  let total_cost := (items.map (fun i => i.cost)).sum
  let total_confidence_weighted :=
    (items.map (fun i => i.confidence_score * i.final_effort_days)).sum
  let avg_confidence :=
    if 0 < total_effort then total_confidence_weighted / total_effort else 0
  (total_effort, total_cost, py_round2 avg_confidence)

/-- `financial_summary.get(key, 0)` accessors used by `_create_summary_sheet`
on a possibly-absent summary block. -/
def fs_total_effort_days : Option FinancialSummary → ℚ
  | none => 0
  | some fs => fs.total_effort_days

def fs_subtotal : Option FinancialSummary → ℚ
  | none => 0
  | some fs => fs.subtotal

def fs_tax : Option FinancialSummary → ℚ
  | none => 0
  | some fs => fs.tax

def fs_total : Option FinancialSummary → ℚ
  | none => 0
  | some fs => fs.total

/-- `_create_summary_sheet` (utils/excel_processor.py lines 235-251): the
emitted Summary sheet rows, with the numeric value each row formats.  The
values are read from the Evaluator-supplied `financial_summary`, NOT
recomputed from the line items. -/
def create_summary_sheet (result : AgentResult) : List (String × ℚ) :=
  match result.estimation_result with
  | some est_data =>
    if result.success then
      [("Total Effort", fs_total_effort_days est_data.financial_summary),
       ("Subtotal", fs_subtotal est_data.financial_summary),
       ("Tax", fs_tax est_data.financial_summary),
       ("Total Amount", fs_total est_data.financial_summary),
       ("Overall Confidence", est_data.overall_confidence)]
    else []
  | none => []

/-- The `financial_summary` block reached from a history snapshot by
`_display_iteration_history` (lines 869-870); `none` models the falsy empty
dict obtained when a link of the `.get(...)` chain is absent. -/
def snapshot_financial (snap : IterationSnapshot) : Option FinancialSummary :=
  match snap.estimation_result with
  | some r =>
    match r.estimation_result with
    | some est => est.financial_summary
    | none => none
  | none => none

/-- The cumulative-change summary of `_display_iteration_history`
(workflow_orchestrator_simple.py lines 867-884): effort delta and cost delta
between the first and last history snapshots, read from their Evaluator-
supplied `financial_summary` blocks (`total_effort_days` and `total`). -/
def history_cumulative_changes (history : List IterationSnapshot) :
    Option (ℚ × ℚ) :=
  if 2 ≤ history.length then
    match history.head?, history.getLast? with
    | some first, some last =>
      match snapshot_financial first, snapshot_financial last with
      | some ffs, some lfs =>
        some (lfs.total_effort_days - ffs.total_effort_days, lfs.total - ffs.total)
      | _, _ => none
    | _, _ => none
  else none

/-! ## Sample values used by concrete witnesses -/

/-- A sample per-deliverable estimate. -/
def sample_item : DeliverableEstimate :=
  { name := "Backend API", description := "REST API implementation",
    base_effort_days := 5, final_effort_days := 6, cost := 300000,
    confidence_score := 4 / 5 }

/-- A consistent Evaluator-supplied summary block. -/
def sample_fs : FinancialSummary :=
  { total_effort_days := 6, subtotal := 300000, tax := 30000, total := 330000 }

/-- A deliberately wrong Evaluator-supplied summary block. -/
def sample_fs_bad : FinancialSummary :=
  { total_effort_days := 99, subtotal := 1, tax := 2, total := 3 }

/-- A sample inner estimation payload. -/
def sample_est_data : EstimationData :=
  { deliverable_estimates := [sample_item], financial_summary := some sample_fs,
    technical_assumptions := "Python, FastAPI", overall_confidence := 4 / 5 }

/-- `sample_est_data` with only the Evaluator-supplied grand totals perturbed. -/
def sample_est_data_perturbed : EstimationData :=
  { sample_est_data with financial_summary := some sample_fs_bad }

/-- A successful estimation-agent result wrapping a payload. -/
def agent_success (d : EstimationData) : AgentResult :=
  { success := true, error := none, estimation_result := some d }

/-- A successful evaluator result (no estimation payload). -/
def sample_eval_ok : AgentResult :=
  { success := true, error := none, estimation_result := none }

/-- A concrete refine capability for witnesses. -/
def sample_refine_agent : RefineAgent :=
  fun _ _ _ _ => agent_success sample_est_data

/-- A concrete generate capability for witnesses. -/
def sample_gen_agent : GenAgent :=
  fun _ _ _ => agent_success sample_est_data

/-- A concrete state as the user-interaction loop first sees it: parallel
evaluation has bumped `iteration_count` to 1 and estimation has succeeded. -/
def sample_loop_state : EstimationState :=
  { create_initial_state "input.xlsx" "Build a web system" [] with
      iteration_count := 1,
      current_step := "estimation_complete",
      business_evaluation := some sample_eval_ok,
      quality_evaluation := some sample_eval_ok,
      constraints_evaluation := some sample_eval_ok,
      estimation_result := some (agent_success sample_est_data) }

/-! ## Helper lemmas on the state operations -/

theorem log_agent_execution_eq (st : EstimationState) (n : String) (r : AgentResult) :
    log_agent_execution st n r =
      { st with
          errors := st.errors ++
            (if r.success then [] else [n ++ ": " ++ r.error.getD "Unknown error"]),
          session_logs := st.session_logs ++
            [{ agent_name := n, success := r.success,
               error := if r.success then none
                        else some (r.error.getD "Unknown error") }] } := by
  cases hr : r.success <;> simp [log_agent_execution, hr]

theorem update_business_eq (st : EstimationState) (r : AgentResult) :
    update_evaluation_result st .business r =
      if r.success then { st with business_evaluation := some r } else st := by
  cases hr : r.success <;> simp [update_evaluation_result, hr]

theorem update_quality_eq (st : EstimationState) (r : AgentResult) :
    update_evaluation_result st .quality r =
      if r.success then { st with quality_evaluation := some r } else st := by
  cases hr : r.success <;> simp [update_evaluation_result, hr]

theorem update_constraints_eq (st : EstimationState) (r : AgentResult) :
    update_evaluation_result st .constraints r =
      if r.success then { st with constraints_evaluation := some r } else st := by
  cases hr : r.success <;> simp [update_evaluation_result, hr]

theorem update_estimation_eq (st : EstimationState) (r : AgentResult) :
    update_evaluation_result st .estimation r =
      if r.success then { st with estimation_result := some r } else st := by
  cases hr : r.success <;> simp [update_evaluation_result, hr]

theorem refine_fold_iteration_history (st : EstimationState) (r : AgentResult) :
    (refine_fold st r).iteration_history = st.iteration_history := by
  cases hr : r.success <;>
    simp [refine_fold, hr, log_agent_execution_eq, update_estimation_eq]

theorem refine_fold_iteration_count (st : EstimationState) (r : AgentResult) :
    (refine_fold st r).iteration_count = st.iteration_count + 1 := by
  cases hr : r.success <;>
    simp [refine_fold, hr, log_agent_execution_eq, update_estimation_eq]

theorem refine_fold_user_approved (st : EstimationState) (r : AgentResult) :
    (refine_fold st r).user_approved = st.user_approved := by
  cases hr : r.success <;>
    simp [refine_fold, hr, log_agent_execution_eq, update_estimation_eq]

theorem refine_fold_estimation_result (st : EstimationState) (r : AgentResult) :
    (refine_fold st r).estimation_result =
      if r.success then some r else st.estimation_result := by
  cases hr : r.success <;>
    simp [refine_fold, hr, log_agent_execution_eq, update_estimation_eq]

theorem execute_refinement_of_some (agent : RefineAgent) (st : EstimationState)
    (est : AgentResult) (h : st.estimation_result = some est) :
    execute_refinement agent st =
      refine_fold (save_with st st.user_feedback est)
        (agent (save_with st st.user_feedback est).estimation_result
          (save_with st st.user_feedback est).user_feedback
          ((save_with st st.user_feedback est).business_evaluation,
           (save_with st st.user_feedback est).quality_evaluation,
           (save_with st st.user_feedback est).constraints_evaluation)
          (previous_estimate_of (save_with st st.user_feedback est))) := by
  simp [execute_refinement, save_iteration_to_history, h]

theorem execute_refinement_history (agent : RefineAgent) (st : EstimationState)
    (est : AgentResult) (h : st.estimation_result = some est) :
    (execute_refinement agent st).iteration_history =
      st.iteration_history ++ [mkIterationSnapshot st st.user_feedback est] := by
  rw [execute_refinement_of_some agent st est h, refine_fold_iteration_history]
  simp [save_with]

theorem execute_refinement_count (agent : RefineAgent) (st : EstimationState)
    (est : AgentResult) (h : st.estimation_result = some est) :
    (execute_refinement agent st).iteration_count = st.iteration_count + 1 := by
  rw [execute_refinement_of_some agent st est h, refine_fold_iteration_count]
  simp [save_with]

theorem execute_refinement_approved (agent : RefineAgent) (st : EstimationState)
    (est : AgentResult) (h : st.estimation_result = some est) :
    (execute_refinement agent st).user_approved = st.user_approved := by
  rw [execute_refinement_of_some agent st est h, refine_fold_user_approved]
  simp [save_with]

theorem execute_refinement_est (agent : RefineAgent) (st : EstimationState)
    (est : AgentResult) (h : st.estimation_result = some est) :
    ∃ e, (execute_refinement agent st).estimation_result = some e := by
  rw [execute_refinement_of_some agent st est h, refine_fold_estimation_result]
  split
  · exact ⟨_, rfl⟩
  · refine ⟨est, ?_⟩
    simp [save_with, h]

theorem reject_target_history (st : EstimationState) (inp : UserInput) :
    (reject_target st inp).iteration_history = st.iteration_history := by
  unfold reject_target; split <;> rfl

theorem reject_target_count (st : EstimationState) (inp : UserInput) :
    (reject_target st inp).iteration_count = st.iteration_count := by
  unfold reject_target; split <;> rfl

theorem reject_target_est (st : EstimationState) (inp : UserInput) :
    (reject_target st inp).estimation_result = st.estimation_result := by
  unfold reject_target; split <;> rfl

theorem reject_target_approved (st : EstimationState) (inp : UserInput) :
    (reject_target st inp).user_approved = false := by
  unfold reject_target; split <;> rfl

theorem process_approve (st : EstimationState) (inp : UserInput)
    (h : is_approve_response inp.response = true) :
    process_user_response st inp =
      .approved { st with user_approved := true, current_step := "approved" } := by
  simp [process_user_response, h]

theorem process_reject (st : EstimationState) (inp : UserInput)
    (h : is_approve_response inp.response = false) :
    process_user_response st inp = .refine (reject_target st inp) := by
  simp [process_user_response, h]

theorem user_loop_aux_zero (agent : RefineAgent) (inputs : List UserInput)
    (st : EstimationState) : user_loop_aux agent 0 inputs st = st := rfl

theorem user_loop_aux_nil (agent : RefineAgent) (fuel : Nat) (st : EstimationState) :
    user_loop_aux agent (fuel + 1) [] st = st := rfl

theorem user_loop_aux_cons_approve (agent : RefineAgent) (fuel : Nat)
    (inp : UserInput) (rest : List UserInput) (st : EstimationState)
    (h : is_approve_response inp.response = true) :
    user_loop_aux agent (fuel + 1) (inp :: rest) st =
      { st with user_approved := true, current_step := "approved" } := by
  simp [user_loop_aux, process_approve st inp h]

theorem user_loop_aux_cons_reject (agent : RefineAgent) (fuel : Nat)
    (inp : UserInput) (rest : List UserInput) (st : EstimationState)
    (h : is_approve_response inp.response = false) :
    user_loop_aux agent (fuel + 1) (inp :: rest) st =
      user_loop_aux agent fuel rest (execute_refinement agent (reject_target st inp)) := by
  simp [user_loop_aux, process_reject st inp h]

/-! ## Consecutive iteration numbers -/

/-- The list `[a, a+1, ..., a+k-1]`. -/
def consecutive_from (a : Nat) : Nat → List Nat
  | 0 => []
  | k + 1 => a :: consecutive_from (a + 1) k

theorem consecutive_from_length (a k : Nat) :
    (consecutive_from a k).length = k := by
  induction k generalizing a with
  | zero => rfl
  | succ k ih => simp [consecutive_from, ih]

theorem mem_consecutive_from {b : Nat} :
    ∀ {a k : Nat}, b ∈ consecutive_from a k → a ≤ b := by
  intro a k
  induction k generalizing a with
  | zero => intro h; simp [consecutive_from] at h
  | succ k ih =>
    intro h
    simp only [consecutive_from, List.mem_cons] at h
    rcases h with h | h
    · omega
    · have := ih h; omega

theorem consecutive_from_pairwise (a k : Nat) :
    (consecutive_from a k).Pairwise (· < ·) := by
  induction k generalizing a with
  | zero => simp [consecutive_from]
  | succ k ih =>
    simp only [consecutive_from, List.pairwise_cons]
    refine ⟨fun b hb => ?_, ih (a + 1)⟩
    have := mem_consecutive_from hb
    omega

/-- Running the user-interaction loop on non-approving decisions only:
each cycle appends one snapshot (numbers consecutive from
`iteration_count + 1`), bumps `iteration_count`, keeps the estimation slot
populated and leaves `user_approved` false once at least one cycle ran. -/
theorem user_loop_reject_run (agent : RefineAgent) :
    ∀ (inputs : List UserInput) (fuel : Nat) (st : EstimationState) (est : AgentResult),
      st.estimation_result = some est →
      (∀ inp ∈ inputs, is_approve_response inp.response = false) →
      (∃ t, (user_loop_aux agent fuel inputs st).iteration_history = st.iteration_history ++ t ∧
            t.map (fun s => s.iteration_number)
              = consecutive_from (st.iteration_count + 1) (min inputs.length fuel)) ∧
      (user_loop_aux agent fuel inputs st).iteration_count
          = st.iteration_count + min inputs.length fuel ∧
      (∃ e, (user_loop_aux agent fuel inputs st).estimation_result = some e) ∧
      (user_loop_aux agent fuel inputs st).user_approved
          = (if min inputs.length fuel = 0 then st.user_approved else false) := by
  intro inputs
  induction inputs with
  | nil =>
    intro fuel st est hest _
    cases fuel with
    | zero =>
      exact ⟨⟨[], by simp [user_loop_aux_zero], by simp [consecutive_from]⟩,
        by simp [user_loop_aux_zero], ⟨est, hest⟩, by simp [user_loop_aux_zero]⟩
    | succ f =>
      exact ⟨⟨[], by simp [user_loop_aux_nil], by simp [consecutive_from]⟩,
        by simp [user_loop_aux_nil], ⟨est, hest⟩, by simp [user_loop_aux_nil]⟩
  | cons inp rest ih =>
    intro fuel st est hest hall
    cases fuel with
    | zero =>
      exact ⟨⟨[], by simp [user_loop_aux_zero], by simp [consecutive_from]⟩,
        by simp [user_loop_aux_zero], ⟨est, hest⟩, by simp [user_loop_aux_zero]⟩
    | succ f =>
      have happ : is_approve_response inp.response = false := hall inp (List.mem_cons_self _ _)
      have hall' : ∀ i ∈ rest, is_approve_response i.response = false :=
        fun i hi => hall i (List.mem_cons_of_mem _ hi)
      rw [user_loop_aux_cons_reject agent f inp rest st happ]
      have hest1 : (reject_target st inp).estimation_result = some est := by
        rw [reject_target_est]; exact hest
      obtain ⟨e2, hest2⟩ := execute_refinement_est agent (reject_target st inp) est hest1
      have hhist2 := execute_refinement_history agent (reject_target st inp) est hest1
      have hcount2 := execute_refinement_count agent (reject_target st inp) est hest1
      have happr2 := execute_refinement_approved agent (reject_target st inp) est hest1
      obtain ⟨⟨t, hT, hTmap⟩, hC, hE, hA⟩ :=
        ih f (execute_refinement agent (reject_target st inp)) e2 hest2 hall'
      have hmin : min (inp :: rest).length (f + 1) = min rest.length f + 1 := by
        simp [List.length_cons]; omega
      refine ⟨⟨mkIterationSnapshot (reject_target st inp) (reject_target st inp).user_feedback est :: t, ?_, ?_⟩, ?_, hE, ?_⟩
      · rw [hT, hhist2, reject_target_history]
        simp
      · simp only [List.map_cons, hTmap, hcount2, reject_target_count, hmin]
        have hnum : (mkIterationSnapshot (reject_target st inp)
            (reject_target st inp).user_feedback est).iteration_number
            = st.iteration_count + 1 := by
          simp [mkIterationSnapshot, reject_target_count]
        rw [hnum]
        rfl
      · rw [hC, hcount2, reject_target_count, hmin]; omega
      · rw [hA, happr2, reject_target_approved, hmin]
        simp

/-! ## Claim theorems -/

/-- C8: Category inference is a pure first-match classifier over the fixed
rule order documentation, frontend, backend, database, testing, security,
deployment, else "other", using case-insensitive substring matching on the
concatenation of name and description; in particular
`infer_category "Login Screen" "User authentication UI"` returns
`"frontend_development"` even though "authentication" matches the later
security rule (the security keyword does occur in the text). -/
theorem C8_infer_category_first_match :
    (∀ name description : String,
      infer_category name description
        = first_match_category category_rules (py_lower (name ++ " " ++ description))) ∧
    infer_category "Login Screen" "User authentication UI" = "frontend_development" ∧
    str_has_sub "authentication"
      (py_lower ("Login Screen" ++ " " ++ "User authentication UI")) = true := by
  refine ⟨fun _ _ => rfl, by decide, by decide⟩

/-- Witness: the first-match characterisation evaluated at a concrete
deliverable. -/
theorem C8_infer_category_first_match_witness :
    infer_category "User Manual" "Operation documentation"
      = first_match_category category_rules
          (py_lower ("User Manual" ++ " " ++ "Operation documentation")) :=
  C8_infer_category_first_match.1 "User Manual" "Operation documentation"

/-- C1: the display aggregation returns `total_effort_days = Σ final_effort_days`,
`total_cost = Σ cost`, and the effort-weighted confidence
`Σ(confidence·effort) / Σ effort` (0 when total effort is 0), and it reads only
the per-item `deliverable_estimates`, never any Evaluator-supplied grand-total
(`financial_summary`) field. -/
theorem C1_display_aggregates_correct :
    (∀ e1 e2 : EstimationData, e1.deliverable_estimates = e2.deliverable_estimates →
      compute_display_aggregates e1 = compute_display_aggregates e2) ∧
    (∀ e : EstimationData,
      (compute_display_aggregates e).1
          = (e.deliverable_estimates.map (fun i => i.final_effort_days)).sum ∧
      (compute_display_aggregates e).2.1
          = (e.deliverable_estimates.map (fun i => i.cost)).sum ∧
      ((compute_display_aggregates e).1 = 0 → (compute_display_aggregates e).2.2 = 0) ∧
      (0 < (compute_display_aggregates e).1 →
        (compute_display_aggregates e).2.2 * (compute_display_aggregates e).1
          = (e.deliverable_estimates.map
              (fun i => i.confidence_score * i.final_effort_days)).sum)) := by
  constructor
  · intro e1 e2 h
    simp [compute_display_aggregates, total_effort_of, total_cost_of,
      weighted_confidence_of, h]
  · intro e
    refine ⟨rfl, rfl, ?_, ?_⟩
    · intro h0
      have h0' : total_effort_of e.deliverable_estimates = 0 := h0
      simp [compute_display_aggregates, weighted_confidence_of, h0']
    · intro hpos
      have hpos' : 0 < total_effort_of e.deliverable_estimates := hpos
      have hne : total_effort_of e.deliverable_estimates ≠ 0 := ne_of_gt hpos'
      simp only [compute_display_aggregates, weighted_confidence_of, total_effort_of] at *
      rw [if_pos hpos']
      exact div_mul_cancel₀ _ hne

/-- Witness: the aggregation at a concrete payload is unchanged when only
`financial_summary` is perturbed. -/
theorem C1_display_aggregates_correct_witness :
    sample_est_data.deliverable_estimates = sample_est_data_perturbed.deliverable_estimates ∧
    compute_display_aggregates sample_est_data
      = compute_display_aggregates sample_est_data_perturbed :=
  ⟨rfl, C1_display_aggregates_correct.1 sample_est_data sample_est_data_perturbed rfl⟩

/-- A bare history snapshot wrapping an estimation result, for concrete
counterexamples about the history summary. -/
def sample_snapshot (r : AgentResult) : IterationSnapshot :=
  { iteration_number := 2, user_feedback := "",
    business_evaluation := none, quality_evaluation := none,
    constraints_evaluation := none, estimation_result := some r,
    session_logs := [], errors := [], warnings := [],
    technical_assumptions := none, changes_summary := none }

/-- C2 counterexample: the emitted summary output (`_create_summary_sheet`)
does NOT recompute totals from the per-deliverable line items: perturbing only
the Evaluator's `financial_summary` (deliverable_estimates fixed) changes the
summarized totals. -/
theorem C2_counterexample_summary_sheet :
    sample_est_data.deliverable_estimates = sample_est_data_perturbed.deliverable_estimates ∧
    create_summary_sheet (agent_success sample_est_data)
      ≠ create_summary_sheet (agent_success sample_est_data_perturbed) := by
  exact ⟨rfl, by decide⟩

/-- C2 (amended): the current-results display and the Excel main-sheet Total
row recompute totals from the per-deliverable line items and are invariant
under perturbing `financial_summary` alone; the emitted Summary sheet and the
iteration-history cumulative-change summary instead read the Evaluator's
`financial_summary` directly, so those outputs change when it is perturbed. -/
theorem C2_amended_totals_invariance :
    (∀ e1 e2 : EstimationData, e1.deliverable_estimates = e2.deliverable_estimates →
      compute_display_aggregates e1 = compute_display_aggregates e2 ∧
      merge_total_row e1 = merge_total_row e2) ∧
    (create_summary_sheet (agent_success sample_est_data)
       ≠ create_summary_sheet (agent_success sample_est_data_perturbed)) ∧
    (history_cumulative_changes
        [sample_snapshot (agent_success sample_est_data),
         sample_snapshot (agent_success sample_est_data)]
      ≠ history_cumulative_changes
        [sample_snapshot (agent_success sample_est_data),
         sample_snapshot (agent_success sample_est_data_perturbed)]) := by
  refine ⟨fun e1 e2 h => ⟨?_, ?_⟩, by decide, ?_⟩
  · simp [compute_display_aggregates, total_effort_of, total_cost_of,
      weighted_confidence_of, h]
  · simp [merge_total_row, h]
  · norm_num [history_cumulative_changes, sample_snapshot, snapshot_financial,
      agent_success, sample_est_data, sample_est_data_perturbed, sample_fs, sample_fs_bad,
      Prod.ext_iff]

/-- Witness: the invariance part of the amended C2 at a concrete payload. -/
theorem C2_amended_totals_invariance_witness :
    sample_est_data.deliverable_estimates = sample_est_data_perturbed.deliverable_estimates ∧
    compute_display_aggregates sample_est_data
        = compute_display_aggregates sample_est_data_perturbed ∧
    merge_total_row sample_est_data = merge_total_row sample_est_data_perturbed := by
  have h := C2_amended_totals_invariance.1 sample_est_data sample_est_data_perturbed rfl
  exact ⟨rfl, h.1, h.2⟩

theorem eval_success_iff (o : Option AgentResult) :
    eval_success o = true ↔ ∃ r, o = some r ∧ r.success = true := by
  cases o <;> simp [eval_success]

/-- C3: `is_evaluation_complete` holds iff the business, quality and
constraints slots are all present with `success = true` (false when any is
missing, unset, or failed); and the Estimation Stage refuses to call the
estimation evaluator when the gate is false, recording the blocking error
"Parallel evaluation not completed" and leaving the estimation slot
unchanged (hence unset when it was unset). -/
theorem C3_completion_gate :
    (∀ st : EstimationState, is_evaluation_complete st = true ↔
      ((∃ b, st.business_evaluation = some b ∧ b.success = true) ∧
       (∃ q, st.quality_evaluation = some q ∧ q.success = true) ∧
       (∃ c, st.constraints_evaluation = some c ∧ c.success = true))) ∧
    (∀ (agent : GenAgent) (st : EstimationState), is_evaluation_complete st = false →
      execute_estimation_generation agent st
        = { st with errors := st.errors ++ [gate_error_message] } ∧
      (execute_estimation_generation agent st).estimation_result = st.estimation_result ∧
      (∀ agent2 : GenAgent,
        execute_estimation_generation agent st = execute_estimation_generation agent2 st)) := by
  constructor
  · intro st
    simp [is_evaluation_complete, Bool.and_eq_true, eval_success_iff, and_assoc]
  · intro agent st h
    have he : execute_estimation_generation agent st
        = { st with errors := st.errors ++ [gate_error_message] } := by
      simp [execute_estimation_generation, h]
    refine ⟨he, by rw [he], fun agent2 => ?_⟩
    rw [he]
    simp [execute_estimation_generation, h]

/-- Witness: the gate refusal evaluated on the initial state (no evaluations
yet) with a concrete generate capability. -/
theorem C3_completion_gate_witness :
    is_evaluation_complete (create_initial_state "in.xlsx" "reqs" []) = false ∧
    execute_estimation_generation sample_gen_agent (create_initial_state "in.xlsx" "reqs" [])
      = { create_initial_state "in.xlsx" "reqs" [] with errors := [gate_error_message] } ∧
    (execute_estimation_generation sample_gen_agent
        (create_initial_state "in.xlsx" "reqs" [])).estimation_result = none := by
  have h := (C3_completion_gate.2 sample_gen_agent (create_initial_state "in.xlsx" "reqs" [])
    (by decide))
  exact ⟨by decide, h.1, h.2.1⟩

/-! ## Parallel-fold slot lemmas -/

theorem fold_business_business (st : EstimationState) (n : String)
    (o : Option AgentResult) :
    (fold_parallel_result st n .business o).business_evaluation
      = (match o with
         | none => st.business_evaluation
         | some r => if r.success then some r else st.business_evaluation) := by
  cases o with
  | none => rfl
  | some r =>
    cases hr : r.success <;>
      simp [fold_parallel_result, hr, log_agent_execution_eq, update_business_eq]

theorem fold_quality_quality (st : EstimationState) (n : String)
    (o : Option AgentResult) :
    (fold_parallel_result st n .quality o).quality_evaluation
      = (match o with
         | none => st.quality_evaluation
         | some r => if r.success then some r else st.quality_evaluation) := by
  cases o with
  | none => rfl
  | some r =>
    cases hr : r.success <;>
      simp [fold_parallel_result, hr, log_agent_execution_eq, update_quality_eq]

theorem fold_constraints_constraints (st : EstimationState) (n : String)
    (o : Option AgentResult) :
    (fold_parallel_result st n .constraints o).constraints_evaluation
      = (match o with
         | none => st.constraints_evaluation
         | some r => if r.success then some r else st.constraints_evaluation) := by
  cases o with
  | none => rfl
  | some r =>
    cases hr : r.success <;>
      simp [fold_parallel_result, hr, log_agent_execution_eq, update_constraints_eq]

theorem fold_quality_business (st : EstimationState) (n : String)
    (o : Option AgentResult) :
    (fold_parallel_result st n .quality o).business_evaluation
      = st.business_evaluation := by
  cases o with
  | none => rfl
  | some r =>
    cases hr : r.success <;>
      simp [fold_parallel_result, hr, log_agent_execution_eq, update_quality_eq]

theorem fold_constraints_business (st : EstimationState) (n : String)
    (o : Option AgentResult) :
    (fold_parallel_result st n .constraints o).business_evaluation
      = st.business_evaluation := by
  cases o with
  | none => rfl
  | some r =>
    cases hr : r.success <;>
      simp [fold_parallel_result, hr, log_agent_execution_eq, update_constraints_eq]

theorem fold_business_quality (st : EstimationState) (n : String)
    (o : Option AgentResult) :
    (fold_parallel_result st n .business o).quality_evaluation
      = st.quality_evaluation := by
  cases o with
  | none => rfl
  | some r =>
    cases hr : r.success <;>
      simp [fold_parallel_result, hr, log_agent_execution_eq, update_business_eq]

theorem fold_constraints_quality (st : EstimationState) (n : String)
    (o : Option AgentResult) :
    (fold_parallel_result st n .constraints o).quality_evaluation
      = st.quality_evaluation := by
  cases o with
  | none => rfl
  | some r =>
    cases hr : r.success <;>
      simp [fold_parallel_result, hr, log_agent_execution_eq, update_constraints_eq]

theorem fold_business_constraints (st : EstimationState) (n : String)
    (o : Option AgentResult) :
    (fold_parallel_result st n .business o).constraints_evaluation
      = st.constraints_evaluation := by
  cases o with
  | none => rfl
  | some r =>
    cases hr : r.success <;>
      simp [fold_parallel_result, hr, log_agent_execution_eq, update_business_eq]

theorem fold_quality_constraints (st : EstimationState) (n : String)
    (o : Option AgentResult) :
    (fold_parallel_result st n .quality o).constraints_evaluation
      = st.constraints_evaluation := by
  cases o with
  | none => rfl
  | some r =>
    cases hr : r.success <;>
      simp [fold_parallel_result, hr, log_agent_execution_eq, update_quality_eq]

theorem parallel_business_slot (res : ParallelResults) (st : EstimationState) :
    (execute_parallel_evaluation res st).business_evaluation
      = (match res.business with
         | none => st.business_evaluation
         | some r => if r.success then some r else st.business_evaluation) := by
  show (fold_parallel_result (fold_parallel_result
      (fold_parallel_result st "BusinessRequirementsAgent" .business res.business)
      "QualityRequirementsAgent" .quality res.quality)
      "ConstraintsAgent" .constraints res.constraints).business_evaluation = _
  simp only [fold_constraints_business, fold_quality_business, fold_business_business]

theorem parallel_quality_slot (res : ParallelResults) (st : EstimationState) :
    (execute_parallel_evaluation res st).quality_evaluation
      = (match res.quality with
         | none => st.quality_evaluation
         | some r => if r.success then some r else st.quality_evaluation) := by
  show (fold_parallel_result (fold_parallel_result
      (fold_parallel_result st "BusinessRequirementsAgent" .business res.business)
      "QualityRequirementsAgent" .quality res.quality)
      "ConstraintsAgent" .constraints res.constraints).quality_evaluation = _
  simp only [fold_constraints_quality, fold_business_quality, fold_quality_quality]

theorem parallel_constraints_slot (res : ParallelResults) (st : EstimationState) :
    (execute_parallel_evaluation res st).constraints_evaluation
      = (match res.constraints with
         | none => st.constraints_evaluation
         | some r => if r.success then some r else st.constraints_evaluation) := by
  show (fold_parallel_result (fold_parallel_result
      (fold_parallel_result st "BusinessRequirementsAgent" .business res.business)
      "QualityRequirementsAgent" .quality res.quality)
      "ConstraintsAgent" .constraints res.constraints).constraints_evaluation = _
  simp only [fold_business_constraints, fold_quality_constraints, fold_constraints_constraints]

/-- C5: a joined result is folded into its WorkflowState evaluation slot only
when it carries `success = true`; a failing result (success false or a raised
fault, i.e. an absent slot) leaves that slot's previous value (or unset state)
unchanged; and when exactly one of the three evaluators faults while the other
two succeed (starting from the initial state, which is how the stage is
invoked), the two successful results are recorded and
`is_evaluation_complete` returns false. -/
theorem C5_fanout_isolation :
    (∀ (st : EstimationState) (res : ParallelResults),
      ((execute_parallel_evaluation res st).business_evaluation
        = (match res.business with
           | none => st.business_evaluation
           | some r => if r.success then some r else st.business_evaluation)) ∧
      ((execute_parallel_evaluation res st).quality_evaluation
        = (match res.quality with
           | none => st.quality_evaluation
           | some r => if r.success then some r else st.quality_evaluation)) ∧
      ((execute_parallel_evaluation res st).constraints_evaluation
        = (match res.constraints with
           | none => st.constraints_evaluation
           | some r => if r.success then some r else st.constraints_evaluation))) ∧
    (∀ (ein sreq : String) (dels : List Deliverable) (r1 r2 : AgentResult),
      r1.success = true → r2.success = true →
      ((execute_parallel_evaluation ⟨none, some r1, some r2⟩
          (create_initial_state ein sreq dels)).business_evaluation = none ∧
       (execute_parallel_evaluation ⟨none, some r1, some r2⟩
          (create_initial_state ein sreq dels)).quality_evaluation = some r1 ∧
       (execute_parallel_evaluation ⟨none, some r1, some r2⟩
          (create_initial_state ein sreq dels)).constraints_evaluation = some r2 ∧
       is_evaluation_complete (execute_parallel_evaluation ⟨none, some r1, some r2⟩
          (create_initial_state ein sreq dels)) = false) ∧
      ((execute_parallel_evaluation ⟨some r1, none, some r2⟩
          (create_initial_state ein sreq dels)).business_evaluation = some r1 ∧
       (execute_parallel_evaluation ⟨some r1, none, some r2⟩
          (create_initial_state ein sreq dels)).quality_evaluation = none ∧
       (execute_parallel_evaluation ⟨some r1, none, some r2⟩
          (create_initial_state ein sreq dels)).constraints_evaluation = some r2 ∧
       is_evaluation_complete (execute_parallel_evaluation ⟨some r1, none, some r2⟩
          (create_initial_state ein sreq dels)) = false) ∧
      ((execute_parallel_evaluation ⟨some r1, some r2, none⟩
          (create_initial_state ein sreq dels)).business_evaluation = some r1 ∧
       (execute_parallel_evaluation ⟨some r1, some r2, none⟩
          (create_initial_state ein sreq dels)).quality_evaluation = some r2 ∧
       (execute_parallel_evaluation ⟨some r1, some r2, none⟩
          (create_initial_state ein sreq dels)).constraints_evaluation = none ∧
       is_evaluation_complete (execute_parallel_evaluation ⟨some r1, some r2, none⟩
          (create_initial_state ein sreq dels)) = false)) := by
  constructor
  · intro st res
    exact ⟨parallel_business_slot res st, parallel_quality_slot res st,
      parallel_constraints_slot res st⟩
  · intro ein sreq dels r1 r2 h1 h2
    refine ⟨⟨?_, ?_, ?_, ?_⟩, ⟨?_, ?_, ?_, ?_⟩, ⟨?_, ?_, ?_, ?_⟩⟩ <;>
      simp [parallel_business_slot, parallel_quality_slot, parallel_constraints_slot,
        is_evaluation_complete, eval_success, create_initial_state, h1, h2]

/-- Witness: one concrete faulting business evaluator alongside two successes. -/
theorem C5_fanout_isolation_witness :
    sample_eval_ok.success = true ∧
    (execute_parallel_evaluation ⟨none, some sample_eval_ok, some sample_eval_ok⟩
        (create_initial_state "in.xlsx" "reqs" [])).quality_evaluation
      = some sample_eval_ok ∧
    is_evaluation_complete (execute_parallel_evaluation
        ⟨none, some sample_eval_ok, some sample_eval_ok⟩
        (create_initial_state "in.xlsx" "reqs" [])) = false := by
  have h := (C5_fanout_isolation.2 "in.xlsx" "reqs" [] sample_eval_ok sample_eval_ok
    rfl rfl).1
  exact ⟨rfl, h.2.1, h.2.2.2⟩

/-- C6 counterexample: in the primary Parallel Evaluation Stage the join calls
`future.result()` with no timeout, so a hanging evaluator call is NOT converted
into a Failure recorded in its slot — the join never produces a results dict at
all (here with the business call hanging and the other two completing
successfully), contradicting the claim that every evaluator call is subject to
a per-call timeout whose expiry is recorded while the fan-out completes. -/
theorem C6_counterexample_primary_no_timeout :
    primary_collect .hangs (.completes sample_eval_ok) (.completes sample_eval_ok)
      = none := by
  decide

/-- C6 (amended): neither parallel-evaluation path applies an effective
per-call timeout.  The primary join calls `future.result()` with no timeout;
the fallback join iterates `as_completed` with no timeout, which yields a
future only once it is already done, so the `timeout=120` it passes to
`future.result` can never fire and its hang-to-`"Timeout"` branch is
unreachable dead code.  A hanging evaluator therefore blocks either join
indefinitely (no results dict is produced, no Failure is recorded for it).
What the fallback path does convert is a raising evaluator call, into
`{"success": False, "error": str(e)}` recorded in that evaluator's slot while
the other two evaluators' results are preserved and the fan-out completes. -/
theorem C6_amended_no_effective_timeout :
    fallback_timeout_seconds = 120 ∧
    (∀ b q c : CallOutcome,
      primary_collect b q c = none ↔ (b = .hangs ∨ q = .hangs ∨ c = .hangs)) ∧
    (∀ b q c : CallOutcome,
      fallback_collect b q c = none ↔ (b = .hangs ∨ q = .hangs ∨ c = .hangs)) ∧
    (∀ (msg : String) (r1 r2 : AgentResult),
      fallback_collect (.raises msg) (.completes r1) (.completes r2)
        = some ⟨some { success := false, error := some msg, estimation_result := none },
                some r1, some r2⟩ ∧
      fallback_collect (.completes r1) (.raises msg) (.completes r2)
        = some ⟨some r1,
                some { success := false, error := some msg, estimation_result := none },
                some r2⟩ ∧
      fallback_collect (.completes r1) (.completes r2) (.raises msg)
        = some ⟨some r1, some r2,
                some { success := false, error := some msg, estimation_result := none }⟩) := by
  refine ⟨rfl, fun b q c => ?_, fun b q c => ?_, fun msg r1 r2 => ⟨rfl, rfl, rfl⟩⟩
  · unfold primary_collect
    split <;> simp_all
  · unfold fallback_collect
    split <;> simp_all

/-- Witness: a hanging business evaluator blocks the fallback join too, while
a raising one is converted and recorded with the other results preserved. -/
theorem C6_amended_no_effective_timeout_witness :
    fallback_collect .hangs (.completes sample_eval_ok) (.completes sample_eval_ok)
      = none ∧
    fallback_collect (.raises "boom") (.completes sample_eval_ok)
        (.completes sample_eval_ok)
      = some ⟨some { success := false, error := some "boom", estimation_result := none },
              some sample_eval_ok, some sample_eval_ok⟩ :=
  ⟨(C6_amended_no_effective_timeout.2.2.1 .hangs (.completes sample_eval_ok)
      (.completes sample_eval_ok)).2 (Or.inl rfl),
   (C6_amended_no_effective_timeout.2.2.2 "boom" sample_eval_ok sample_eval_ok).1⟩

/-- C4: for every decision sequence consisting only of rejections (at least
`max_iterations` decisions available), the refinement loop terminates after
exactly `max_iterations = 3` refinement cycles (3 snapshots appended, 3
`iteration_count` increments) with `user_approved` false and the terminal
max-iterations warning, returning a state normally; for the sequence
reject, reject, approve, it terminates after 3 decision cycles (2 refinement
cycles) with `user_approved` true and no warning. -/
theorem C4_loop_termination :
    max_iterations = 3 ∧
    (∀ (agent : RefineAgent) (st : EstimationState) (est : AgentResult)
        (inputs : List UserInput),
      st.estimation_result = some est →
      3 ≤ inputs.length →
      (∀ inp ∈ inputs, is_approve_response inp.response = false) →
      (execute_user_interaction_loop agent inputs st).1.user_approved = false ∧
      (execute_user_interaction_loop agent inputs st).2 = true ∧
      (execute_user_interaction_loop agent inputs st).1.iteration_count
        = st.iteration_count + 3 ∧
      (execute_user_interaction_loop agent inputs st).1.iteration_history.length
        = st.iteration_history.length + 3) ∧
    (∀ (agent : RefineAgent) (st : EstimationState) (est : AgentResult)
        (i1 i2 i3 : UserInput),
      st.estimation_result = some est →
      is_approve_response i1.response = false →
      is_approve_response i2.response = false →
      is_approve_response i3.response = true →
      (execute_user_interaction_loop agent [i1, i2, i3] st).1.user_approved = true ∧
      (execute_user_interaction_loop agent [i1, i2, i3] st).2 = false ∧
      (execute_user_interaction_loop agent [i1, i2, i3] st).1.iteration_history.length
        = st.iteration_history.length + 2) := by
  refine ⟨rfl, ?_, ?_⟩
  · intro agent st est inputs hest hlen hall
    have hmin : min inputs.length max_iterations = 3 := by
      simp [max_iterations]; omega
    obtain ⟨⟨t, hT, hTmap⟩, hC, _, hA⟩ :=
      user_loop_reject_run agent inputs max_iterations st est hest hall
    have htlen : t.length = 3 := by
      have := congrArg List.length hTmap
      simpa [consecutive_from_length, hmin] using this
    refine ⟨?_, ?_, ?_, ?_⟩
    · show (user_loop_aux agent max_iterations inputs st).user_approved = false
      rw [hA, hmin]; simp
    · show (!(user_loop_aux agent max_iterations inputs st).user_approved) = true
      rw [hA, hmin]; simp
    · show (user_loop_aux agent max_iterations inputs st).iteration_count = _
      rw [hC, hmin]
    · show (user_loop_aux agent max_iterations inputs st).iteration_history.length = _
      rw [hT]; simp [htlen]
  · intro agent st est i1 i2 i3 hest h1 h2 h3
    have e1 : (reject_target st i1).estimation_result = some est := by
      rw [reject_target_est]; exact hest
    obtain ⟨r2, hr2⟩ := execute_refinement_est agent (reject_target st i1) est e1
    have e2 : (reject_target (execute_refinement agent (reject_target st i1)) i2).estimation_result
        = some r2 := by
      rw [reject_target_est]; exact hr2
    have hloop : user_loop_aux agent max_iterations [i1, i2, i3] st
        = { execute_refinement agent
              (reject_target (execute_refinement agent (reject_target st i1)) i2) with
            user_approved := true, current_step := "approved" } := by
      show user_loop_aux agent (2 + 1) [i1, i2, i3] st = _
      rw [user_loop_aux_cons_reject agent 2 i1 [i2, i3] st h1]
      show user_loop_aux agent (1 + 1) [i2, i3] _ = _
      rw [user_loop_aux_cons_reject agent 1 i2 [i3]
        (execute_refinement agent (reject_target st i1)) h2]
      show user_loop_aux agent (0 + 1) [i3] _ = _
      rw [user_loop_aux_cons_approve agent 0 i3 []
        (execute_refinement agent (reject_target (execute_refinement agent (reject_target st i1)) i2)) h3]
    have hhist : (execute_refinement agent
          (reject_target (execute_refinement agent (reject_target st i1)) i2)).iteration_history.length
        = st.iteration_history.length + 2 := by
      rw [execute_refinement_history agent _ r2 e2]
      rw [List.length_append, reject_target_history]
      rw [execute_refinement_history agent _ est e1]
      rw [List.length_append, reject_target_history]
      simp
    refine ⟨?_, ?_, ?_⟩
    · show (user_loop_aux agent max_iterations [i1, i2, i3] st).user_approved = true
      rw [hloop]
    · show (!(user_loop_aux agent max_iterations [i1, i2, i3] st).user_approved) = false
      rw [hloop]
      simp
    · show (user_loop_aux agent max_iterations [i1, i2, i3] st).iteration_history.length = _
      rw [hloop]
      exact hhist

/-- C7: the iteration history is append-only: each refinement cycle appends
exactly one snapshot (so after N all-rejection cycles the history gains
exactly `min N max_iterations` entries and the initial estimate is never
separately snapshotted), the snapshot carries
`iteration_number = iteration_count + 1` and the pre-refinement
`estimation_result`, prior entries are preserved as a prefix (never mutated or
truncated), and starting from an empty history the `iteration_number`s are
strictly increasing. -/
theorem C7_history_append_only :
    (∀ (agent : RefineAgent) (st : EstimationState) (est : AgentResult),
      st.estimation_result = some est →
      (execute_refinement agent st).iteration_history
        = st.iteration_history ++ [mkIterationSnapshot st st.user_feedback est] ∧
      (mkIterationSnapshot st st.user_feedback est).iteration_number
        = st.iteration_count + 1 ∧
      (mkIterationSnapshot st st.user_feedback est).estimation_result
        = st.estimation_result) ∧
    (∀ (agent : RefineAgent) (st : EstimationState) (est : AgentResult)
        (inputs : List UserInput),
      st.estimation_result = some est →
      (∀ inp ∈ inputs, is_approve_response inp.response = false) →
      ∃ t, (execute_user_interaction_loop agent inputs st).1.iteration_history
              = st.iteration_history ++ t ∧
           t.length = min inputs.length max_iterations ∧
           (st.iteration_history = [] →
             (((execute_user_interaction_loop agent inputs st).1.iteration_history.map
                 (fun s => s.iteration_number)).Pairwise (· < ·)))) := by
  constructor
  · intro agent st est h
    exact ⟨execute_refinement_history agent st est h, rfl, rfl⟩
  · intro agent st est inputs hest hall
    obtain ⟨⟨t, hT, hTmap⟩, _, _, _⟩ :=
      user_loop_reject_run agent inputs max_iterations st est hest hall
    refine ⟨t, hT, ?_, ?_⟩
    · have := congrArg List.length hTmap
      simpa [consecutive_from_length] using this
    · intro hnil
      show ((user_loop_aux agent max_iterations inputs st).iteration_history.map
          (fun s => s.iteration_number)).Pairwise (· < ·)
      rw [hT, hnil]
      simp only [List.nil_append]
      rw [hTmap]
      exact consecutive_from_pairwise _ _

/-- C10: `iteration_count` counts stage executions: it starts at 0, the
Parallel Evaluation Stage increments it to 1 before any user decision, the
Estimation Stage leaves it unchanged, each refinement cycle increments it once
more (`iteration_number` of a snapshot being `iteration_count + 1` at snapshot
time), so after 3 all-rejection refinement cycles from the post-evaluation
state `iteration_count = 3 + 1` and the history numbers are `[2, 3, 4]` — the
first snapshot is numbered 2, never 1. -/
theorem C10_iteration_count_stage_semantics :
    (∀ (e s : String) (d : List Deliverable),
      (create_initial_state e s d).iteration_count = 0) ∧
    (∀ (res : ParallelResults) (st : EstimationState),
      (execute_parallel_evaluation res st).iteration_count = st.iteration_count + 1) ∧
    (∀ (agent : GenAgent) (st : EstimationState),
      (execute_estimation_generation agent st).iteration_count = st.iteration_count) ∧
    (∀ (agent : RefineAgent) (st : EstimationState) (est : AgentResult),
      st.estimation_result = some est →
      (execute_refinement agent st).iteration_count = st.iteration_count + 1) ∧
    (∀ (st : EstimationState) (fb : String) (est : AgentResult),
      (mkIterationSnapshot st fb est).iteration_number = st.iteration_count + 1) ∧
    (∀ (agent : RefineAgent) (st : EstimationState) (est : AgentResult)
        (inputs : List UserInput),
      st.estimation_result = some est → st.iteration_count = 1 →
      st.iteration_history = [] → 3 ≤ inputs.length →
      (∀ inp ∈ inputs, is_approve_response inp.response = false) →
      (execute_user_interaction_loop agent inputs st).1.iteration_count = 3 + 1 ∧
      ((execute_user_interaction_loop agent inputs st).1.iteration_history.map
          (fun s => s.iteration_number)) = [2, 3, 4]) := by
  refine ⟨fun _ _ _ => rfl, fun _ _ => rfl, ?_, ?_, fun _ _ _ => rfl, ?_⟩
  · intro agent st
    unfold execute_estimation_generation
    split
    · rfl
    · simp only [log_agent_execution_eq, update_estimation_eq]
      split <;> rfl
  · intro agent st est h
    exact execute_refinement_count agent st est h
  · intro agent st est inputs hest hic hnil hlen hall
    obtain ⟨⟨t, hT, hTmap⟩, hC, _, _⟩ :=
      user_loop_reject_run agent inputs max_iterations st est hest hall
    have hmin : min inputs.length max_iterations = 3 := by
      simp [max_iterations]; omega
    constructor
    · show (user_loop_aux agent max_iterations inputs st).iteration_count = 3 + 1
      rw [hC, hmin, hic]
    · show ((user_loop_aux agent max_iterations inputs st).iteration_history.map
          (fun s => s.iteration_number)) = [2, 3, 4]
      rw [hT, hnil]
      simp only [List.nil_append]
      rw [hTmap, hic, hmin]
      rfl

/-- C9: the approval-prompt input is stripped of surrounding whitespace and
lowercased before classification; the loop approves exactly when the result is
"y", "yes" or "approve"; every other input — including the empty string — sets
`user_approved` to false and hands the state to a refinement cycle, storing as
`user_feedback` the normalized input itself, or, for the explicit rejection
tokens "n"/"no"/"reject", the separately prompted feedback text. -/
theorem C9_input_classification :
    approve_tokens = ["y", "yes", "approve"] ∧
    reject_tokens = ["n", "no", "reject"] ∧
    (∀ (st : EstimationState) (inp : UserInput),
      (∃ st', process_user_response st inp = .approved st')
        ↔ approve_tokens.contains (py_lower (py_strip inp.response)) = true) ∧
    (∀ (st : EstimationState) (inp : UserInput),
      is_approve_response inp.response = false →
      process_user_response st inp
        = .refine
            { st with
                user_approved := false,
                user_feedback :=
                  if reject_tokens.contains (normalize_response inp.response) = true then
                    inp.feedback
                  else normalize_response inp.response,
                current_step := "needs_refinement" }) ∧
    (∀ (st : EstimationState) (fb : String),
      process_user_response st { response := "", feedback := fb }
        = .refine
            { st with
                user_approved := false,
                user_feedback := "",
                current_step := "needs_refinement" }) ∧
    (∀ (agent : RefineAgent) (fuel : Nat) (inp : UserInput) (rest : List UserInput)
        (st : EstimationState),
      is_approve_response inp.response = false →
      user_loop_aux agent (fuel + 1) (inp :: rest) st
        = user_loop_aux agent fuel rest (execute_refinement agent (reject_target st inp))) := by
  refine ⟨rfl, rfl, ?_, ?_, ?_, ?_⟩
  · intro st inp
    have hdef : approve_tokens.contains (py_lower (py_strip inp.response))
        = is_approve_response inp.response := rfl
    rw [hdef]
    constructor
    · rintro ⟨st', h⟩
      cases hia : is_approve_response inp.response with
      | true => rfl
      | false =>
        rw [process_reject st inp hia] at h
        exact DecisionStep.noConfusion h
    · intro hia
      exact ⟨_, process_approve st inp hia⟩
  · intro st inp hia
    rw [process_reject st inp hia]
    unfold reject_target
    split
    · rename_i hc
      simp [hc]
    · rename_i hc
      simp [hc]
  · intro st fb
    have hia : is_approve_response ("" : String) = false := by decide
    rw [process_reject st { response := "", feedback := fb } hia]
    have hrj : reject_tokens.contains (normalize_response ("" : String)) = false := by decide
    have hnorm : normalize_response ("" : String) = "" := by decide
    unfold reject_target
    rw [show ({ response := "", feedback := fb } : UserInput).response = "" from rfl]
    rw [hrj]
    simp [hnorm]
  · intro agent fuel inp rest st hia
    exact user_loop_aux_cons_reject agent fuel inp rest st hia

/-- Witness: the all-rejection and reject-reject-approve runs at concrete
inputs and a concrete refine capability. -/
theorem C4_loop_termination_witness :
    sample_loop_state.estimation_result = some (agent_success sample_est_data) ∧
    (∀ inp ∈ ([{ response := "no", feedback := "add cache" },
               { response := " No ", feedback := "more tests" },
               { response := "redo", feedback := "" }] : List UserInput),
      is_approve_response inp.response = false) ∧
    (execute_user_interaction_loop sample_refine_agent
        [{ response := "no", feedback := "add cache" },
         { response := " No ", feedback := "more tests" },
         { response := "redo", feedback := "" }] sample_loop_state).1.user_approved = false ∧
    (execute_user_interaction_loop sample_refine_agent
        [{ response := "no", feedback := "add cache" },
         { response := " No ", feedback := "more tests" },
         { response := "redo", feedback := "" }] sample_loop_state).2 = true ∧
    (execute_user_interaction_loop sample_refine_agent
        [{ response := "reject", feedback := "a" },
         { response := "n", feedback := "b" },
         { response := " YES ", feedback := "" }] sample_loop_state).1.user_approved = true := by
  have hall := C4_loop_termination.2.1 sample_refine_agent sample_loop_state
    (agent_success sample_est_data)
    [{ response := "no", feedback := "add cache" },
     { response := " No ", feedback := "more tests" },
     { response := "redo", feedback := "" }] rfl (by decide) (by decide)
  have hrra := C4_loop_termination.2.2 sample_refine_agent sample_loop_state
    (agent_success sample_est_data)
    { response := "reject", feedback := "a" }
    { response := "n", feedback := "b" }
    { response := " YES ", feedback := "" } rfl (by decide) (by decide) (by decide)
  exact ⟨rfl, by decide, hall.1, hall.2.1, hrra.1⟩

/-- Witness: one concrete refinement cycle appends exactly its snapshot,
numbered 2. -/
theorem C7_history_append_only_witness :
    sample_loop_state.estimation_result = some (agent_success sample_est_data) ∧
    (execute_refinement sample_refine_agent sample_loop_state).iteration_history
      = sample_loop_state.iteration_history
        ++ [mkIterationSnapshot sample_loop_state sample_loop_state.user_feedback
              (agent_success sample_est_data)] ∧
    (mkIterationSnapshot sample_loop_state sample_loop_state.user_feedback
        (agent_success sample_est_data)).iteration_number = 2 := by
  have h := C7_history_append_only.1 sample_refine_agent sample_loop_state
    (agent_success sample_est_data) rfl
  exact ⟨rfl, h.1, h.2.1⟩

/-- Witness: the concrete post-evaluation run, counting 3 refinements on top
of the stage increment and numbering the snapshots 2, 3, 4. -/
theorem C10_iteration_count_stage_semantics_witness :
    sample_loop_state.iteration_count = 1 ∧
    (execute_user_interaction_loop sample_refine_agent
        [{ response := "no", feedback := "a" },
         { response := "no", feedback := "b" },
         { response := "no", feedback := "c" }] sample_loop_state).1.iteration_count = 4 ∧
    ((execute_user_interaction_loop sample_refine_agent
        [{ response := "no", feedback := "a" },
         { response := "no", feedback := "b" },
         { response := "no", feedback := "c" }] sample_loop_state).1.iteration_history.map
        (fun s => s.iteration_number)) = [2, 3, 4] := by
  have h := C10_iteration_count_stage_semantics.2.2.2.2.2 sample_refine_agent
    sample_loop_state (agent_success sample_est_data)
    [{ response := "no", feedback := "a" },
     { response := "no", feedback := "b" },
     { response := "no", feedback := "c" }] rfl rfl rfl (by decide) (by decide)
  exact ⟨rfl, h.1, h.2⟩

/-- Witness: a non-token answer is normalized and becomes the feedback
itself. -/
theorem C9_input_classification_witness :
    is_approve_response (" Faster " : String) = false ∧
    process_user_response sample_loop_state { response := " Faster ", feedback := "ignored" }
      = .refine
          { sample_loop_state with
              user_approved := false,
              user_feedback :=
                if reject_tokens.contains (normalize_response (" Faster " : String)) = true then
                  "ignored"
                else normalize_response (" Faster " : String),
              current_step := "needs_refinement" } :=
  ⟨by decide,
   C9_input_classification.2.2.2.1 sample_loop_state
     { response := " Faster ", feedback := "ignored" } (by decide)⟩
